import Mathlib

/-!
Verification of the blob-testing core of the hive engine simulator.

The development shallowly embeds the Go sources:
  * `simulators/ethereum/engine/helper/blobs.go` (versioned-hash construction),
  * `simulators/ethereum/engine/suites/blobs/helpers.go` (the test transaction
    pool, the cross-field transaction verifier, the static `Tests` table and
    the `BlobsBaseSpec.Execute` step loop).

Machine bytes are modelled as `Nat` (values below 256 where it matters),
Go byte slices as `List Nat` with `Option` distinguishing a nil slice from an
empty one, and Go `error` returns as `Option String` / `Except String`.
External library calls (sha256, go-ethereum value renderers) are parameters
of the embedding.
-/

namespace HiveBlobs

/-- Go-ethereum `common.BytesToHash` / `Hash.SetBytes`: if the input is longer
than 32 bytes it is cropped from the left, otherwise it is left-padded with
zero bytes to a length of 32. -/
def bytesToHash (b : List Nat) : List Nat :=
  if 32 ≤ b.length then b.drop (b.length - 32)
  else List.replicate (32 - b.length) 0 ++ b

/-- `api.BlobsBundle`, restricted to the field read by
`VersionedHashesFromBlobBundle`.  `commitments = none` models a nil
`Commitments` slice; each commitment is a byte slice. -/
structure BlobsBundle where
  commitments : Option (List (List Nat))
deriving DecidableEq

/-- `helper.VersionedHashesFromBlobBundle` from `helper/blobs.go`.  The
argument `bb = none` models a nil `*api.BlobsBundle` pointer.  `sha256` is the
external `crypto/sha256.Sum256`, a parameter of the embedding (it always
returns 32 bytes; theorems assume that).  For each commitment the function
produces `BytesToHash(version byte :: sha256(commitment) with its first byte
dropped)`. -/
def VersionedHashesFromBlobBundle (sha256 : List Nat → List Nat)
    (bb : Option BlobsBundle) (commitmentVersion : Nat) :
    Except String (List (List Nat)) :=
  match bb with
  | none => .error "nil blob bundle"
  | some bundle =>
    match bundle.commitments with
    | none => .error "nil commitments"
    | some commitments =>
      .ok (commitments.map (fun commitment =>
        bytesToHash (commitmentVersion :: (sha256 commitment).drop 1)))

/-! ### Transactions and the cross-field verifier (`helpers.go`, part 1) -/

/-- Go-ethereum access list: per entry an address plus a list of storage
keys, all modelled as byte lists. -/
abbrev AccessList := List (List Nat × List (List Nat))

/-- The slice of the `e_typ.Transaction` interface read by the code under
verification: every getter used by `VerifyTransactionFromNode` becomes a
field, plus `txHash` for `Hash()` (computed externally by go-ethereum, hence
modelled as data).  Pointer/slice-valued getters (`To`, `Data`, `AccessList`,
`BlobHashes`) may be nil, hence `Option`.  `big.Int`-valued getters are `Int`;
`Type()` is `txType` (`Type` is reserved in Lean). -/
structure Transaction where
  nonce : Nat
  gas : Nat
  gasPrice : Int
  value : Int
  toAddress : Option (List Nat)
  data : Option (List Nat)
  accessList : Option AccessList
  chainId : Int
  blobGas : Nat
  gasFeeCap : Int
  gasTipCap : Int
  blobGasFeeCap : Int
  blobHashes : Option (List (List Nat))
  txType : Nat
  txHash : Nat
deriving DecidableEq

/-- The guard pattern `x != nil && y != nil && p(x, y)` used by
`VerifyTransactionFromNode` for its pointer/slice-valued fields: the
comparison `p` runs only when both sides are non-nil. -/
def bothSomeAnd {α : Type} (p : α → α → Bool) : Option α → Option α → Bool
  | some a, some b => p a b
  | _, _ => false

/-- One lowercase hexadecimal digit, as produced by Go `encoding/hex`. -/
def hexDigit (n : Nat) : Char :=
  if n < 10 then Char.ofNat (48 + n) else Char.ofNat (87 + n)

/-- Go `hex.EncodeToString`: two lowercase hex digits per byte. -/
def hexEncode (bs : List Nat) : String :=
  String.mk (bs.map (fun b => [hexDigit (b / 16 % 16), hexDigit (b % 16)])).flatten

/-- The field-comparison part of `VerifyTransactionFromNode` from
`suites/blobs/helpers.go` (the preceding `TransactionByHash` network fetch is
external I/O; its result is the `returnedTx` argument).  The rendering
functions performed by external go-ethereum/fmt code are parameters:
`addrHex` is `common.Address.Hex()` (EIP-55 checksummed), `fmtAccessList` and
`fmtHashes` are `fmt`'s `%v` renderings.  The comparison chain, the guard
conditions and the message formats mirror the source line by line; the
function returns `none` exactly where the Go code returns `nil`. -/
def VerifyTransactionFromNodeFields (addrHex : List Nat → String)
    (fmtAccessList : AccessList → String)
    (fmtHashes : List (List Nat) → String)
    (returnedTx tx : Transaction) : Option String :=
  if returnedTx.nonce != tx.nonce then
    some ("nonce mismatch: " ++ toString returnedTx.nonce ++ " != " ++ toString tx.nonce)
  else if returnedTx.gas != tx.gas then
    some ("gas mismatch: " ++ toString returnedTx.gas ++ " != " ++ toString tx.gas)
  else if returnedTx.gasPrice != tx.gasPrice then
    some ("gas price mismatch: " ++ toString returnedTx.gasPrice ++ " != " ++ toString tx.gasPrice)
  else if returnedTx.value != tx.value then
    some ("value mismatch: " ++ toString returnedTx.value ++ " != " ++ toString tx.value)
  else if bothSomeAnd (fun a b => addrHex a != addrHex b) returnedTx.toAddress tx.toAddress then
    some ("to mismatch: " ++ addrHex (returnedTx.toAddress.getD []) ++ " != " ++ addrHex (tx.toAddress.getD []))
  else if bothSomeAnd (fun a b => a != b) returnedTx.data tx.data then
    some ("data mismatch: " ++ hexEncode (returnedTx.data.getD []) ++ " != " ++ hexEncode (tx.data.getD []))
  else if bothSomeAnd (fun a b => a != b) returnedTx.accessList tx.accessList then
    some ("access list mismatch: " ++ fmtAccessList (returnedTx.accessList.getD []) ++ " != " ++ fmtAccessList (tx.accessList.getD []))
  else if returnedTx.chainId != tx.chainId then
    some ("chain id mismatch: " ++ toString returnedTx.chainId ++ " != " ++ toString tx.chainId)
  else if returnedTx.blobGas != tx.blobGas then
    some ("data gas mismatch: " ++ toString returnedTx.blobGas ++ " != " ++ toString tx.blobGas)
  else if returnedTx.gasFeeCap != tx.gasFeeCap then
    some ("max fee per gas mismatch: " ++ toString returnedTx.gasFeeCap ++ " != " ++ toString tx.gasFeeCap)
  else if returnedTx.gasTipCap != tx.gasTipCap then
    some ("max priority fee per gas mismatch: " ++ toString returnedTx.gasTipCap ++ " != " ++ toString tx.gasTipCap)
  else if returnedTx.blobGasFeeCap != tx.blobGasFeeCap then
    some ("max fee per data gas mismatch: " ++ toString returnedTx.blobGasFeeCap ++ " != " ++ toString tx.blobGasFeeCap)
  else if bothSomeAnd (fun a b => a != b) returnedTx.blobHashes tx.blobHashes then
    some ("blob versioned hashes mismatch: " ++ fmtHashes (returnedTx.blobHashes.getD []) ++ " != " ++ fmtHashes (tx.blobHashes.getD []))
  else if returnedTx.txType != tx.txType then
    some ("type mismatch: " ++ toString returnedTx.txType ++ " != " ++ toString tx.txType)
  else
    none

/-! ### The test transaction pool (`helpers.go`, part 1) -/

/-- `TestBlobTxPool`: a Go map from transaction hash to transaction.
`transactions = none` models a nil map (the zero value of the struct); a Go
map is modelled as an association list with unique keys maintained by
`mapInsert`. -/
structure TestBlobTxPool where
  transactions : Option (List (Nat × Transaction))
deriving DecidableEq

/-- Go map assignment `m[k] = v`: replace the binding of `k` if present,
otherwise add one. -/
def mapInsert (m : List (Nat × Transaction)) (k : Nat) (v : Transaction) :
    List (Nat × Transaction) :=
  match m with
  | [] => [(k, v)]
  | (k', v') :: rest =>
    if k' = k then (k, v) :: rest else (k', v') :: mapInsert rest k v

/-- Go map read `m[k]` (with presence flag): the binding of `k`, if any. -/
def mapLookup (m : List (Nat × Transaction)) (k : Nat) : Option Transaction :=
  match m with
  | [] => none
  | (k', v') :: rest => if k' = k then some v' else mapLookup rest k

/-- `TestBlobTxPool.AddBlobTransaction`: initialize the map if it is nil,
then store the transaction under its hash. -/
def AddBlobTransaction (pool : TestBlobTxPool) (tx : Transaction) :
    TestBlobTxPool :=
  { transactions := some (mapInsert (pool.transactions.getD []) tx.txHash tx) }

/-- Reading `pool.Transactions[hash]`. -/
def poolLookup (pool : TestBlobTxPool) (h : Nat) : Option Transaction :=
  mapLookup (pool.transactions.getD []) h

/-! ### The step-execution loop (`BlobsBaseSpec.Execute`) -/

/-- Modelled from the spec: a `TestStep` of the scripted sequence, the
"describe + execute against shared context" capability of §9/§3 (the Go
`TestStep` interface and its implementations are outside the sources at
hand).  `execute` may mutate the shared context or fail with an error. -/
structure TestStepModel (Ctx : Type) where
  description : String
  execute : Ctx → Except String Ctx

/-- Outcome of running a step sequence: either every step succeeded, or the
run aborted fatally at the numbered step (1-based, as logged by `Execute`)
with the formatted failure message.  `t.Fatalf` is modelled from the spec
("the first failing assertion aborts the test case"): it terminates the run.
-/
inductive ExecOutcome (Ctx : Type) where
  | success : Ctx → ExecOutcome Ctx
  | fatal : Nat → String → ExecOutcome Ctx
deriving DecidableEq

/-- The loop body of `BlobsBaseSpec.Execute`, from an arbitrary 0-based
step counter: each step is executed in order on the evolving context; the
first step whose `Execute` returns an error triggers
`t.Fatalf("FAIL: Error executing step %d: %v", stepId+1, err)` and nothing
further runs.  The returned list records the 1-based numbers of the steps
that were executed, in execution order. -/
def runStepsFrom {Ctx : Type} (stepId : Nat) (steps : List (TestStepModel Ctx))
    (ctx : Ctx) : List Nat × ExecOutcome Ctx :=
  match steps with
  | [] => ([], .success ctx)
  | s :: rest =>
    match s.execute ctx with
    | .error e =>
      ([stepId + 1],
        .fatal (stepId + 1)
          ("FAIL: Error executing step " ++ toString (stepId + 1) ++ ": " ++ e))
    | .ok ctx2 =>
      let r := runStepsFrom (stepId + 1) rest ctx2
      ((stepId + 1) :: r.1, r.2)

/-- `BlobsBaseSpec.Execute`'s step loop over a test sequence, starting at
step counter 0 (the `WaitForTTD` and context set-up preceding the loop do
not affect the sequencing being verified). -/
def BlobsBaseSpecExecuteSteps {Ctx : Type} (steps : List (TestStepModel Ctx))
    (ctx : Ctx) : List Nat × ExecOutcome Ctx :=
  runStepsFrom 0 steps ctx

/-- Sequential composition of step executions with no failure: the context
after running every step of the list, or the first error. -/
def runAllSteps {Ctx : Type} : List (TestStepModel Ctx) → Ctx → Except String Ctx
  | [], ctx => .ok ctx
  | s :: rest, ctx =>
    match s.execute ctx with
    | .error e => .error e
    | .ok ctx2 => runAllSteps rest ctx2

/-! ### Fork constants and fee helpers (`helpers.go`, part 2) -/

def DATA_GAS_PER_BLOB : Nat := 0x20000

def MIN_DATA_GASPRICE : Nat := 1

def MAX_DATA_GAS_PER_BLOCK : Nat := 786432

def TARGET_DATA_GAS_PER_BLOCK : Nat := 393216

def TARGET_BLOBS_PER_BLOCK : Nat := TARGET_DATA_GAS_PER_BLOCK / DATA_GAS_PER_BLOB

def MAX_BLOBS_PER_BLOCK : Nat := MAX_DATA_GAS_PER_BLOCK / DATA_GAS_PER_BLOB

def DATA_GASPRICE_UPDATE_FRACTION : Nat := 3338477

def BLOB_COMMITMENT_VERSION_KZG : Nat := 0x01

/-- Modelled from the spec: the EIP-4844 `fake_exponential` loop, the
"production fee algorithm" of §1/§4.6 whose implementation lives outside the
sources at hand.  The fuel argument only bounds the loop; it is chosen large
enough that the accumulator reaches zero first on every input used here. -/
def fakeExponentialAux (numerator denominator : Nat) :
    Nat → Nat → Nat → Nat → Nat
  | 0, _, output, _ => output
  | fuel + 1, i, output, accum =>
    if accum = 0 then output
    else
      fakeExponentialAux numerator denominator fuel (i + 1) (output + accum)
        (accum * numerator / (denominator * i))

/-- Modelled from the spec: EIP-4844 `fake_exponential(factor, numerator,
denominator)`, an integer approximation of
`factor * exp(numerator / denominator)`. -/
def fakeExponential (factor numerator denominator : Nat) : Nat :=
  fakeExponentialAux numerator denominator 1000 1 0 (factor * denominator) /
    denominator

/-- Modelled from the spec: the dynamic per-blob-gas price as a function of
the excess data gas (§4.6 "dynamic-fee accounting"), per EIP-4844. -/
def getDataGasPrice (excessDataGas : Nat) : Nat :=
  fakeExponential MIN_DATA_GASPRICE excessDataGas DATA_GASPRICE_UPDATE_FRACTION

/-- Bounded search used by `GetMinExcessDataBlobsForDataGasPrice`. -/
def minExcessDataBlobsAux (price : Nat) : Nat → Nat → Nat
  | 0, blobs => blobs
  | fuel + 1, blobs =>
    if price ≤ getDataGasPrice (blobs * DATA_GAS_PER_BLOB) then blobs
    else minExcessDataBlobsAux price fuel (blobs + 1)

/-- Modelled from the spec: `GetMinExcessDataBlobsForDataGasPrice` (declared
outside the sources at hand), the least number of excess data blobs at which
the dynamic per-blob-gas price reaches the given value — "raise blob count
until the dynamic per-blob-gas price crosses a threshold" (§8). -/
def GetMinExcessDataBlobsForDataGasPrice (price : Nat) : Nat :=
  minExcessDataBlobsAux price 1000 0

/-- `DATA_GAS_COST_INCREMENT_EXCEED_BLOBS`, precalculated in `helpers.go` as
`GetMinExcessDataBlobsForDataGasPrice(2)`. -/
def DATA_GAS_COST_INCREMENT_EXCEED_BLOBS : Nat :=
  GetMinExcessDataBlobsForDataGasPrice 2

/-- Modelled from the spec: `helper.GetBlobList(start, count)` (declared
outside the sources at hand) lists `count` consecutive `BlobID`s starting at
`start`, matching the monotonically increasing BlobID counter of §4.3. -/
def GetBlobList (start count : Nat) : List Nat :=
  (List.range count).map (fun i => start + i)

/-! ### The static test table (`helpers.go`, part 2)

Each Go struct literal becomes a Lean structure literal; Go zero values of
omitted fields become the structure defaults (`0`, `none`, `false`), with
`Option` for pointer fields so that a nil slice/pointer stays distinguishable
from an empty one. -/

/-- The `SendBlobTransactions` test step configuration. -/
structure SendBlobTransactions where
  blobTransactionSendCount : Nat := 0
  blobsPerTransaction : Nat := 0
  blobTransactionMaxDataGasCost : Option Int := none
  blobTransactionGasFeeCap : Option Int := none
  blobTransactionGasTipCap : Option Int := none
  replaceTransactions : Bool := false
  accountIndex : Nat := 0
  clientIndex : Nat := 0
deriving DecidableEq

/-- The `VersionedHashes` corruption specification: a rewritten `BlobID`
sequence (`none` models a nil `Blobs` slice) plus optional per-position
version-byte overrides. -/
structure VersionedHashes where
  blobs : Option (List Nat) := none
  hashVersions : Option (List Nat) := none
deriving DecidableEq

/-- `helper.CustomPayloadData`, restricted to the field used by the table. -/
structure CustomPayloadData where
  dataGasUsed : Option Nat := none
deriving DecidableEq

/-- The `NewPayloads` test step configuration. -/
structure NewPayloads where
  payloadCount : Nat := 0
  expectedIncludedBlobCount : Nat := 0
  expectedBlobs : Option (List Nat) := none
  versionedHashes : Option VersionedHashes := none
  getPayloadDelay : Nat := 0
  payloadCustomizer : Option CustomPayloadData := none
deriving DecidableEq

/-- The `LaunchClients` test step configuration (the `EngineStarter` handle
is an external collaborator and carries no data relevant to the claims). -/
structure LaunchClients where
  skipAddingToCLMock : Bool := false
  skipConnectingToBootnode : Bool := false
deriving DecidableEq

/-- `test.PayloadStatus` acceptance classifications of the engine API. -/
inductive PayloadStatus where
  | valid
  | invalid
  | syncing
  | accepted
  | invalidBlockHash
deriving DecidableEq

/-- The `SendModifiedLatestPayload` test step configuration. -/
structure SendModifiedLatestPayload where
  clientID : Nat := 0
  versionedHashes : Option VersionedHashes := none
  expectedStatus : PayloadStatus := .valid
deriving DecidableEq

/-- The closed set of test step kinds appearing in the `Tests` table. -/
inductive TestStep where
  | sendBlobTransactions (cfg : SendBlobTransactions)
  | newPayloads (cfg : NewPayloads)
  | launchClients (cfg : LaunchClients)
  | sendModifiedLatestPayload (cfg : SendModifiedLatestPayload)
deriving DecidableEq

/-- `BlobsBaseSpec`, restricted to the fields set in the `Tests` table: the
test name (from the embedded `test.Spec`), the fork height and the step
sequence. -/
structure BlobsBaseSpec where
  name : String
  blobsForkHeight : Nat := 0
  blobTestSequence : List TestStep
deriving DecidableEq

/-- The static test table `Tests` of `suites/blobs/helpers.go`, transcribed
spec by spec in source order. -/
def Tests : List BlobsBaseSpec := [
  { name := "Blob Transactions On Block 1, Cancun Genesis",
    blobsForkHeight := 0,
    blobTestSequence := [
      .sendBlobTransactions {
        blobTransactionSendCount := TARGET_BLOBS_PER_BLOCK,
        blobTransactionMaxDataGasCost := some 1 },
      .newPayloads {
        expectedIncludedBlobCount := TARGET_BLOBS_PER_BLOCK,
        expectedBlobs := some (GetBlobList 0 TARGET_BLOBS_PER_BLOCK) },
      .sendBlobTransactions {
        blobTransactionSendCount :=
          DATA_GAS_COST_INCREMENT_EXCEED_BLOBS /
            (MAX_BLOBS_PER_BLOCK - TARGET_BLOBS_PER_BLOCK) + 1,
        blobsPerTransaction := MAX_BLOBS_PER_BLOCK,
        blobTransactionMaxDataGasCost := some 1 },
      .newPayloads {
        payloadCount :=
          DATA_GAS_COST_INCREMENT_EXCEED_BLOBS /
            (MAX_BLOBS_PER_BLOCK - TARGET_BLOBS_PER_BLOCK),
        expectedIncludedBlobCount := MAX_BLOBS_PER_BLOCK },
      .newPayloads { expectedIncludedBlobCount := 0 },
      .newPayloads { expectedIncludedBlobCount := MAX_BLOBS_PER_BLOCK } ] },
  { name := "Blob Transaction Ordering, Single Account",
    blobsForkHeight := 0,
    blobTestSequence := [
      .sendBlobTransactions {
        blobTransactionSendCount := 5,
        blobsPerTransaction := MAX_BLOBS_PER_BLOCK - 1,
        blobTransactionMaxDataGasCost := some 100 },
      .sendBlobTransactions {
        blobTransactionSendCount := 5,
        blobsPerTransaction := 1,
        blobTransactionMaxDataGasCost := some 100 },
      .newPayloads {
        payloadCount := 4,
        expectedIncludedBlobCount := MAX_BLOBS_PER_BLOCK - 1 },
      .newPayloads {
        payloadCount := 2,
        expectedIncludedBlobCount := MAX_BLOBS_PER_BLOCK } ] },
  { name := "Blob Transaction Ordering, Multiple Accounts",
    blobsForkHeight := 0,
    blobTestSequence := [
      .sendBlobTransactions {
        blobTransactionSendCount := 5,
        blobsPerTransaction := MAX_BLOBS_PER_BLOCK - 1,
        blobTransactionMaxDataGasCost := some 100,
        accountIndex := 0 },
      .sendBlobTransactions {
        blobTransactionSendCount := 5,
        blobsPerTransaction := 1,
        blobTransactionMaxDataGasCost := some 100,
        accountIndex := 1 },
      .newPayloads {
        payloadCount := 5,
        expectedIncludedBlobCount := MAX_BLOBS_PER_BLOCK } ] },
  { name := "Blob Transaction Ordering, Multiple Clients",
    blobsForkHeight := 0,
    blobTestSequence := [
      .launchClients { skipAddingToCLMock := true },
      .newPayloads {
        payloadCount := 1,
        expectedIncludedBlobCount := 0 },
      .sendBlobTransactions {
        blobTransactionSendCount := 5,
        blobsPerTransaction := MAX_BLOBS_PER_BLOCK - 1,
        blobTransactionMaxDataGasCost := some 100,
        accountIndex := 0,
        clientIndex := 0 },
      .sendBlobTransactions {
        blobTransactionSendCount := 5,
        blobsPerTransaction := 1,
        blobTransactionMaxDataGasCost := some 100,
        accountIndex := 1,
        clientIndex := 1 },
      .newPayloads {
        payloadCount := 5,
        expectedIncludedBlobCount := MAX_BLOBS_PER_BLOCK,
        getPayloadDelay := 2 } ] },
  { name := "Replace Blob Transactions",
    blobsForkHeight := 0,
    blobTestSequence := [
      .sendBlobTransactions {
        blobTransactionSendCount := 1,
        blobTransactionMaxDataGasCost := some 1,
        blobTransactionGasFeeCap := some 1000000000,
        blobTransactionGasTipCap := some 1000000000 },
      .sendBlobTransactions {
        blobTransactionSendCount := 1,
        blobTransactionMaxDataGasCost := some 1,
        blobTransactionGasFeeCap := some 10000000000,
        blobTransactionGasTipCap := some 10000000000,
        replaceTransactions := true },
      .sendBlobTransactions {
        blobTransactionSendCount := 1,
        blobTransactionMaxDataGasCost := some 1,
        blobTransactionGasFeeCap := some 100000000000,
        blobTransactionGasTipCap := some 100000000000,
        replaceTransactions := true },
      .sendBlobTransactions {
        blobTransactionSendCount := 1,
        blobTransactionMaxDataGasCost := some 1,
        blobTransactionGasFeeCap := some 1000000000000,
        blobTransactionGasTipCap := some 1000000000000,
        replaceTransactions := true },
      .newPayloads {
        expectedIncludedBlobCount := 1,
        expectedBlobs := some [3] } ] },
  { name := "NewPayloadV3 Versioned Hashes, Missing Hash",
    blobTestSequence := [
      .sendBlobTransactions {
        blobTransactionSendCount := TARGET_BLOBS_PER_BLOCK,
        blobTransactionMaxDataGasCost := some 1 },
      .newPayloads {
        expectedIncludedBlobCount := 2,
        expectedBlobs := some [0, 1],
        versionedHashes := some { blobs := some [0] } } ] },
  { name := "NewPayloadV3 Versioned Hashes, Extra Hash",
    blobTestSequence := [
      .sendBlobTransactions {
        blobTransactionSendCount := TARGET_BLOBS_PER_BLOCK,
        blobTransactionMaxDataGasCost := some 1 },
      .newPayloads {
        expectedIncludedBlobCount := 2,
        expectedBlobs := some [0, 1],
        versionedHashes := some { blobs := some [0, 1, 2] } } ] },
  { name := "NewPayloadV3 Versioned Hashes, Out of Order",
    blobTestSequence := [
      .sendBlobTransactions {
        blobTransactionSendCount := TARGET_BLOBS_PER_BLOCK,
        blobTransactionMaxDataGasCost := some 1 },
      .newPayloads {
        expectedIncludedBlobCount := 2,
        expectedBlobs := some [0, 1],
        versionedHashes := some { blobs := some [1, 0] } } ] },
  { name := "NewPayloadV3 Versioned Hashes, Repeated Hash",
    blobTestSequence := [
      .sendBlobTransactions {
        blobTransactionSendCount := TARGET_BLOBS_PER_BLOCK,
        blobTransactionMaxDataGasCost := some 1 },
      .newPayloads {
        expectedIncludedBlobCount := 2,
        expectedBlobs := some [0, 1],
        versionedHashes := some { blobs := some [0, 1, 1] } } ] },
  { name := "NewPayloadV3 Versioned Hashes, Incorrect Hash",
    blobTestSequence := [
      .sendBlobTransactions {
        blobTransactionSendCount := TARGET_BLOBS_PER_BLOCK,
        blobTransactionMaxDataGasCost := some 1 },
      .newPayloads {
        expectedIncludedBlobCount := 2,
        expectedBlobs := some [0, 1],
        versionedHashes := some { blobs := some [0, 2] } } ] },
  { name := "NewPayloadV3 Versioned Hashes, Incorrect Version",
    blobTestSequence := [
      .sendBlobTransactions {
        blobTransactionSendCount := TARGET_BLOBS_PER_BLOCK,
        blobTransactionMaxDataGasCost := some 1 },
      .newPayloads {
        expectedIncludedBlobCount := 2,
        expectedBlobs := some [0, 1],
        versionedHashes := some {
          blobs := some [0, 1],
          hashVersions := some [BLOB_COMMITMENT_VERSION_KZG,
            BLOB_COMMITMENT_VERSION_KZG + 1] } } ] },
  { name := "NewPayloadV3 Versioned Hashes, Nil Hashes",
    blobTestSequence := [
      .sendBlobTransactions {
        blobTransactionSendCount := TARGET_BLOBS_PER_BLOCK,
        blobTransactionMaxDataGasCost := some 1 },
      .newPayloads {
        expectedIncludedBlobCount := 2,
        expectedBlobs := some [0, 1],
        versionedHashes := some { blobs := none } } ] },
  { name := "NewPayloadV3 Versioned Hashes, Empty Hashes",
    blobTestSequence := [
      .sendBlobTransactions {
        blobTransactionSendCount := TARGET_BLOBS_PER_BLOCK,
        blobTransactionMaxDataGasCost := some 1 },
      .newPayloads {
        expectedIncludedBlobCount := 2,
        expectedBlobs := some [0, 1],
        versionedHashes := some { blobs := some [] } } ] },
  { name := "NewPayloadV3 Versioned Hashes, Non-Empty Hashes",
    blobTestSequence := [
      .newPayloads {
        expectedIncludedBlobCount := 0,
        expectedBlobs := some [],
        versionedHashes := some { blobs := some [0, 1] } } ] },
  { name := "NewPayloadV3 Versioned Hashes, Missing Hash (Syncing)",
    blobTestSequence := [
      .newPayloads {},
      .sendBlobTransactions {
        blobTransactionSendCount := TARGET_BLOBS_PER_BLOCK,
        blobTransactionMaxDataGasCost := some 1 },
      .newPayloads {
        expectedIncludedBlobCount := 2,
        expectedBlobs := some [0, 1] },
      .launchClients {
        skipAddingToCLMock := true,
        skipConnectingToBootnode := true },
      .sendModifiedLatestPayload {
        clientID := 1,
        versionedHashes := some { blobs := some [0] },
        expectedStatus := .invalid } ] },
  { name := "NewPayloadV3 Versioned Hashes, Extra Hash (Syncing)",
    blobTestSequence := [
      .newPayloads {},
      .sendBlobTransactions {
        blobTransactionSendCount := TARGET_BLOBS_PER_BLOCK,
        blobTransactionMaxDataGasCost := some 1 },
      .newPayloads {
        expectedIncludedBlobCount := 2,
        expectedBlobs := some [0, 1] },
      .launchClients {
        skipAddingToCLMock := true,
        skipConnectingToBootnode := true },
      .sendModifiedLatestPayload {
        clientID := 1,
        versionedHashes := some { blobs := some [0, 1, 2] },
        expectedStatus := .invalid } ] },
  { name := "NewPayloadV3 Versioned Hashes, Out of Order (Syncing)",
    blobTestSequence := [
      .newPayloads {},
      .sendBlobTransactions {
        blobTransactionSendCount := TARGET_BLOBS_PER_BLOCK,
        blobTransactionMaxDataGasCost := some 1 },
      .newPayloads {
        expectedIncludedBlobCount := 2,
        expectedBlobs := some [0, 1] },
      .launchClients {
        skipAddingToCLMock := true,
        skipConnectingToBootnode := true },
      .sendModifiedLatestPayload {
        clientID := 1,
        versionedHashes := some { blobs := some [1, 0] },
        expectedStatus := .invalid } ] },
  { name := "NewPayloadV3 Versioned Hashes, Repeated Hash (Syncing)",
    blobTestSequence := [
      .newPayloads {},
      .sendBlobTransactions {
        blobTransactionSendCount := TARGET_BLOBS_PER_BLOCK,
        blobTransactionMaxDataGasCost := some 1 },
      .newPayloads {
        expectedIncludedBlobCount := 2,
        expectedBlobs := some [0, 1] },
      .launchClients {
        skipAddingToCLMock := true,
        skipConnectingToBootnode := true },
      .sendModifiedLatestPayload {
        clientID := 1,
        versionedHashes := some { blobs := some [0, 1, 1] },
        expectedStatus := .invalid } ] },
  { name := "NewPayloadV3 Versioned Hashes, Incorrect Hash (Syncing)",
    blobTestSequence := [
      .newPayloads {},
      .sendBlobTransactions {
        blobTransactionSendCount := TARGET_BLOBS_PER_BLOCK,
        blobTransactionMaxDataGasCost := some 1 },
      .newPayloads {
        expectedIncludedBlobCount := 2,
        expectedBlobs := some [0, 1] },
      .launchClients {
        skipAddingToCLMock := true,
        skipConnectingToBootnode := true },
      .sendModifiedLatestPayload {
        clientID := 1,
        versionedHashes := some { blobs := some [0, 2] },
        expectedStatus := .invalid } ] },
  { name := "NewPayloadV3 Versioned Hashes, Incorrect Version (Syncing)",
    blobTestSequence := [
      .newPayloads {},
      .sendBlobTransactions {
        blobTransactionSendCount := TARGET_BLOBS_PER_BLOCK,
        blobTransactionMaxDataGasCost := some 1 },
      .newPayloads {
        expectedIncludedBlobCount := 2,
        expectedBlobs := some [0, 1] },
      .launchClients {
        skipAddingToCLMock := true,
        skipConnectingToBootnode := true },
      .sendModifiedLatestPayload {
        clientID := 1,
        versionedHashes := some {
          blobs := some [0, 1],
          hashVersions := some [BLOB_COMMITMENT_VERSION_KZG,
            BLOB_COMMITMENT_VERSION_KZG + 1] },
        expectedStatus := .invalid } ] },
  { name := "NewPayloadV3 Versioned Hashes, Nil Hashes (Syncing)",
    blobTestSequence := [
      .newPayloads {},
      .sendBlobTransactions {
        blobTransactionSendCount := TARGET_BLOBS_PER_BLOCK,
        blobTransactionMaxDataGasCost := some 1 },
      .newPayloads {
        expectedIncludedBlobCount := 2,
        expectedBlobs := some [0, 1] },
      .launchClients {
        skipAddingToCLMock := true,
        skipConnectingToBootnode := true },
      .sendModifiedLatestPayload {
        clientID := 1,
        versionedHashes := some { blobs := none },
        expectedStatus := .invalid } ] },
  { name := "NewPayloadV3 Versioned Hashes, Empty Hashes (Syncing)",
    blobTestSequence := [
      .newPayloads {},
      .sendBlobTransactions {
        blobTransactionSendCount := TARGET_BLOBS_PER_BLOCK,
        blobTransactionMaxDataGasCost := some 1 },
      .newPayloads {
        expectedIncludedBlobCount := 2,
        expectedBlobs := some [0, 1] },
      .launchClients {
        skipAddingToCLMock := true,
        skipConnectingToBootnode := true },
      .sendModifiedLatestPayload {
        clientID := 1,
        versionedHashes := some { blobs := some [] },
        expectedStatus := .invalid } ] },
  { name := "NewPayloadV3 Versioned Hashes, Non-Empty Hashes (Syncing)",
    blobTestSequence := [
      .newPayloads {},
      .newPayloads {
        expectedIncludedBlobCount := 0,
        expectedBlobs := some [] },
      .launchClients {
        skipAddingToCLMock := true,
        skipConnectingToBootnode := true },
      .sendModifiedLatestPayload {
        clientID := 1,
        versionedHashes := some { blobs := some [0, 1] },
        expectedStatus := .invalid } ] },
  { name := "Incorrect DataGasUsed: Non-Zero on Zero Blobs",
    blobTestSequence := [
      .newPayloads {
        expectedIncludedBlobCount := 0,
        payloadCustomizer := some { dataGasUsed := some 1 } } ] },
  { name := "Incorrect DataGasUsed: DATA_GAS_PER_BLOB on Zero Blobs",
    blobTestSequence := [
      .newPayloads {
        expectedIncludedBlobCount := 0,
        payloadCustomizer := some { dataGasUsed := some DATA_GAS_PER_BLOB } } ] }
]

/-! ### Extraction helpers over the table -/

/-- The `SendBlobTransactions` configurations of a spec, in sequence order. -/
def sendConfigs (s : BlobsBaseSpec) : List SendBlobTransactions :=
  s.blobTestSequence.filterMap (fun st =>
    match st with
    | .sendBlobTransactions cfg => some cfg
    | _ => none)

/-- The `NewPayloads` configurations of a spec, in sequence order. -/
def payloadConfigs (s : BlobsBaseSpec) : List NewPayloads :=
  s.blobTestSequence.filterMap (fun st =>
    match st with
    | .newPayloads cfg => some cfg
    | _ => none)

/-- The `NewPayloads` configurations of a step list, in order. -/
def stepPayloadConfigs (steps : List TestStep) : List NewPayloads :=
  steps.filterMap (fun st =>
    match st with
    | .newPayloads cfg => some cfg
    | _ => none)

/-- Every `SendModifiedLatestPayload` configuration of the table that
carries a `VersionedHashes` override, in table order. -/
def sendModifiedWithHashes (table : List BlobsBaseSpec) :
    List SendModifiedLatestPayload :=
  (table.map (fun s => s.blobTestSequence.filterMap (fun st =>
    match st with
    | .sendModifiedLatestPayload cfg =>
      if cfg.versionedHashes.isSome then some cfg else none
    | _ => none))).flatten

/-- Modelled from the spec: the blob transaction factory (outside the sources
at hand) sends one blob per transaction when `BlobsPerTransaction` is left at
its zero value, as the replacement scenario's sends — annotated `Blob ID
0`..`Blob ID 3` in the source — each carry a single blob. -/
def effectiveBlobsPerTransaction (cfg : SendBlobTransactions) : Nat :=
  if cfg.blobsPerTransaction = 0 then 1 else cfg.blobsPerTransaction

/-- Modelled from the spec: a `NewPayloads` step with `PayloadCount` left at
its zero value produces a single payload ("exactly one zero-blob payload" in
§8's rollover scenario). -/
def effectivePayloadCount (cfg : NewPayloads) : Nat :=
  if cfg.payloadCount = 0 then 1 else cfg.payloadCount

/-- The per-payload expected included-blob counts of a list of `NewPayloads`
configurations, one entry per produced payload. -/
def expandedExpectations (l : List NewPayloads) : List Nat :=
  (l.map (fun cfg =>
    List.replicate (effectivePayloadCount cfg) cfg.expectedIncludedBlobCount)).flatten

/-- A concrete transaction value used to instantiate theorems: all fields
fixed except the nonce and the hash. -/
def mkTx (n h : Nat) : Transaction :=
  { nonce := n, gas := 21000, gasPrice := 1, value := 0, toAddress := none,
    data := none, accessList := none, chainId := 7, blobGas := 131072,
    gasFeeCap := 3, gasTipCap := 2, blobGasFeeCap := 1, blobHashes := none,
    txType := 3, txHash := h }

/-! ## Theorems -/

theorem bytesToHash_of_length_32 (b : List Nat) (h : b.length = 32) :
    bytesToHash b = b := by
  simp [bytesToHash, h]

/-- C1: for every non-nil blob bundle with a non-nil commitments list and
every version byte `v`, `VersionedHashesFromBlobBundle` produces, position
by position, the 32-byte hash `v :: drop_first_byte(sha256(commitment))`:
the result is exactly the commitments list mapped through the canonical
construction (so it is position-aligned), and each produced hash has 32
bytes, the first being `v`.  The hypothesis states the contract of the
external `sha256.Sum256` (a 32-byte digest). -/
theorem versionedHashesFromBlobBundle_canonical
    (sha256 : List Nat → List Nat) (h32 : ∀ c, (sha256 c).length = 32)
    (commitments : List (List Nat)) (v : Nat) :
    VersionedHashesFromBlobBundle sha256
        (some { commitments := some commitments }) v =
      .ok (commitments.map (fun c => v :: (sha256 c).drop 1)) ∧
    ∀ c ∈ commitments,
      (v :: (sha256 c).drop 1).length = 32 ∧
      (v :: (sha256 c).drop 1).headI = v := by
  have hlen : ∀ c : List Nat, (v :: (sha256 c).drop 1).length = 32 := by
    intro c
    simp [List.length_drop, h32 c]
  constructor
  · simp only [VersionedHashesFromBlobBundle]
    congr 1
    apply List.map_congr_left
    intro c _
    exact bytesToHash_of_length_32 _ (hlen c)
  · intro c _
    exact ⟨hlen c, rfl⟩

/-- Witness for C1 at a concrete digest function and bundle. -/
theorem versionedHashesFromBlobBundle_canonical_witness :
    VersionedHashesFromBlobBundle (fun _ => List.range 32)
        (some { commitments := some [[7, 8], [9]] }) 1 =
      .ok ([[7, 8], [9]].map
        (fun c => 1 :: ((fun _ : List Nat => List.range 32) c).drop 1)) :=
  (versionedHashesFromBlobBundle_canonical (fun _ => List.range 32)
    (fun _ => by simp) [[7, 8], [9]] 1).1

/-- C9: `VersionedHashesFromBlobBundle` errors exactly on a nil bundle
pointer or a nil commitments list; on every other input it returns the
mapped hash list, whose length equals the commitments list's length. -/
theorem versionedHashesFromBlobBundle_error_conditions
    (sha256 : List Nat → List Nat) (v : Nat) :
    (∀ bb, (∃ e, VersionedHashesFromBlobBundle sha256 bb v = .error e) ↔
      (bb = none ∨ bb = some { commitments := none })) ∧
    (∀ commitments,
      VersionedHashesFromBlobBundle sha256
          (some { commitments := some commitments }) v =
        .ok (commitments.map
          (fun c => bytesToHash (v :: (sha256 c).drop 1))) ∧
      (commitments.map
        (fun c => bytesToHash (v :: (sha256 c).drop 1))).length =
          commitments.length) := by
  constructor
  · intro bb
    match bb with
    | none => simp [VersionedHashesFromBlobBundle]
    | some { commitments := none } => simp [VersionedHashesFromBlobBundle]
    | some { commitments := some cs } => simp [VersionedHashesFromBlobBundle]
  · intro cs
    exact ⟨rfl, by simp⟩

/-- Witness for C9 at a concrete digest function and bundle. -/
theorem versionedHashesFromBlobBundle_error_conditions_witness :
    VersionedHashesFromBlobBundle (fun c => c)
        (some { commitments := some [[3]] }) 1 =
      .ok [bytesToHash (1 :: ([3] : List Nat).drop 1)] :=
  ((versionedHashesFromBlobBundle_error_conditions (fun c => c) 1).2 [[3]]).1

theorem mapLookup_mapInsert_self (m : List (Nat × Transaction)) (k : Nat)
    (v : Transaction) : mapLookup (mapInsert m k v) k = some v := by
  induction m with
  | nil => simp [mapInsert, mapLookup]
  | cons hd tl ih =>
    by_cases h : hd.1 = k
    · simp [mapInsert, mapLookup, h]
    · simpa [mapInsert, mapLookup, h] using ih

theorem mapInsert_mapInsert_self (m : List (Nat × Transaction)) (k : Nat)
    (v : Transaction) : mapInsert (mapInsert m k v) k v = mapInsert m k v := by
  induction m with
  | nil => simp [mapInsert]
  | cons hd tl ih =>
    by_cases h : hd.1 = k
    · simp [mapInsert, h]
    · simpa [mapInsert, h] using ih

theorem mapLookup_mapInsert_ne (m : List (Nat × Transaction)) (k : Nat)
    (v : Transaction) (h : Nat) (hne : h ≠ k) :
    mapLookup (mapInsert m k v) h = mapLookup m h := by
  induction m with
  | nil => simp [mapInsert, mapLookup, Ne.symm hne]
  | cons hd tl ih =>
    by_cases hk : hd.1 = k
    · simp [mapInsert, mapLookup, hk, Ne.symm hne]
    · simp [mapInsert, mapLookup, hk, ih]

/-- C5: `AddBlobTransaction` stores the transaction under its hash key,
overwriting any existing binding (the lookup after the add finds exactly the
added transaction whatever the previous pool state); adding the same
transaction twice leaves the pool equal to adding it once; and bindings
under every other hash are untouched. -/
theorem addBlobTransaction_pool_semantics (pool : TestBlobTxPool)
    (tx : Transaction) :
    poolLookup (AddBlobTransaction pool tx) tx.txHash = some tx ∧
    AddBlobTransaction (AddBlobTransaction pool tx) tx =
      AddBlobTransaction pool tx ∧
    ∀ h, h ≠ tx.txHash →
      poolLookup (AddBlobTransaction pool tx) h = poolLookup pool h := by
  refine ⟨?_, ?_, ?_⟩
  · simp [poolLookup, AddBlobTransaction, mapLookup_mapInsert_self]
  · simp [AddBlobTransaction, mapInsert_mapInsert_self]
  · intro h hne
    simp [poolLookup, AddBlobTransaction, mapLookup_mapInsert_ne _ _ _ _ hne]

/-- Witness for C5 on a fresh pool, a concrete transaction and a different
hash key. -/
theorem addBlobTransaction_pool_semantics_witness :
    (2 : Nat) ≠ (mkTx 1 5).txHash ∧
    poolLookup (AddBlobTransaction { transactions := none } (mkTx 1 5)) 2 =
      poolLookup { transactions := none } 2 :=
  ⟨by decide,
    (addBlobTransaction_pool_semantics { transactions := none }
      (mkTx 1 5)).2.2 2 (by decide)⟩

/-- C2 counterexample: the claim "if any single one of the listed fields
differs then an error is returned, and nil is returned only when every
listed field matches" fails on the code: here every field agrees except the
destination (nil on the node-returned side, set on the local side), yet the
field comparison returns nil, because the destination check runs only when
both sides are non-nil. -/
theorem verifyTransactionFromNode_nil_guard_counterexample :
    ({ mkTx 1 9 with toAddress := some [17] } : Transaction).toAddress ≠
      (mkTx 1 9).toAddress ∧
    VerifyTransactionFromNodeFields hexEncode (fun _ => "") (fun _ => "")
      (mkTx 1 9) { mkTx 1 9 with toAddress := some [17] } = none := by
  decide

theorem ifSomeChain {α : Type} {c : Bool} {m : α} {rest : Option α} :
    (if c then some m else rest) = none ↔ c = false ∧ rest = none := by
  cases c <;> simp

set_option maxHeartbeats 1600000 in
/-- C2 (amended): the field comparison of `VerifyTransactionFromNode`
returns nil exactly when every listed field comparison passes, where the
pointer/slice-valued fields (destination, call data, access list,
versioned-hash list) are compared only when both sides are non-nil; and when
the first failing comparison is a given field's, the returned error message
names that field and renders both values. -/
theorem verifyTransactionFromNode_field_diagnostics
    (addrHex : List Nat → String) (fmtAccessList : AccessList → String)
    (fmtHashes : List (List Nat) → String) (r t : Transaction) :
    (VerifyTransactionFromNodeFields addrHex fmtAccessList fmtHashes r t =
        none ↔
      (r.nonce = t.nonce ∧ r.gas = t.gas ∧ r.gasPrice = t.gasPrice ∧
        r.value = t.value ∧
        bothSomeAnd (fun a b => addrHex a != addrHex b) r.toAddress
          t.toAddress = false ∧
        bothSomeAnd (fun a b => a != b) r.data t.data = false ∧
        bothSomeAnd (fun a b => a != b) r.accessList t.accessList = false ∧
        r.chainId = t.chainId ∧ r.blobGas = t.blobGas ∧
        r.gasFeeCap = t.gasFeeCap ∧ r.gasTipCap = t.gasTipCap ∧
        r.blobGasFeeCap = t.blobGasFeeCap ∧
        bothSomeAnd (fun a b => a != b) r.blobHashes t.blobHashes = false ∧
        r.txType = t.txType)) ∧
    (r.nonce ≠ t.nonce →
      VerifyTransactionFromNodeFields addrHex fmtAccessList fmtHashes r t =
        some ("nonce mismatch: " ++ toString r.nonce ++ " != " ++
          toString t.nonce)) ∧
    (r.nonce = t.nonce → r.gas ≠ t.gas →
      VerifyTransactionFromNodeFields addrHex fmtAccessList fmtHashes r t =
        some ("gas mismatch: " ++ toString r.gas ++ " != " ++
          toString t.gas)) ∧
    (r.nonce = t.nonce → r.gas = t.gas → r.gasPrice ≠ t.gasPrice →
      VerifyTransactionFromNodeFields addrHex fmtAccessList fmtHashes r t =
        some ("gas price mismatch: " ++ toString r.gasPrice ++ " != " ++
          toString t.gasPrice)) ∧
    (r.nonce = t.nonce → r.gas = t.gas → r.gasPrice = t.gasPrice →
      r.value ≠ t.value →
      VerifyTransactionFromNodeFields addrHex fmtAccessList fmtHashes r t =
        some ("value mismatch: " ++ toString r.value ++ " != " ++
          toString t.value)) ∧
    (r.nonce = t.nonce → r.gas = t.gas → r.gasPrice = t.gasPrice →
      r.value = t.value →
      ∀ a b, r.toAddress = some a → t.toAddress = some b →
      addrHex a ≠ addrHex b →
      VerifyTransactionFromNodeFields addrHex fmtAccessList fmtHashes r t =
        some ("to mismatch: " ++ addrHex a ++ " != " ++ addrHex b)) ∧
    (r.nonce = t.nonce → r.gas = t.gas → r.gasPrice = t.gasPrice →
      r.value = t.value →
      bothSomeAnd (fun a b => addrHex a != addrHex b) r.toAddress
        t.toAddress = false →
      ∀ a b, r.data = some a → t.data = some b → a ≠ b →
      VerifyTransactionFromNodeFields addrHex fmtAccessList fmtHashes r t =
        some ("data mismatch: " ++ hexEncode a ++ " != " ++ hexEncode b)) ∧
    (r.nonce = t.nonce → r.gas = t.gas → r.gasPrice = t.gasPrice →
      r.value = t.value →
      bothSomeAnd (fun a b => addrHex a != addrHex b) r.toAddress
        t.toAddress = false →
      bothSomeAnd (fun a b => a != b) r.data t.data = false →
      ∀ a b, r.accessList = some a → t.accessList = some b → a ≠ b →
      VerifyTransactionFromNodeFields addrHex fmtAccessList fmtHashes r t =
        some ("access list mismatch: " ++ fmtAccessList a ++ " != " ++
          fmtAccessList b)) ∧
    (r.nonce = t.nonce → r.gas = t.gas → r.gasPrice = t.gasPrice →
      r.value = t.value →
      bothSomeAnd (fun a b => addrHex a != addrHex b) r.toAddress
        t.toAddress = false →
      bothSomeAnd (fun a b => a != b) r.data t.data = false →
      bothSomeAnd (fun a b => a != b) r.accessList t.accessList = false →
      r.chainId ≠ t.chainId →
      VerifyTransactionFromNodeFields addrHex fmtAccessList fmtHashes r t =
        some ("chain id mismatch: " ++ toString r.chainId ++ " != " ++
          toString t.chainId)) ∧
    (r.nonce = t.nonce → r.gas = t.gas → r.gasPrice = t.gasPrice →
      r.value = t.value →
      bothSomeAnd (fun a b => addrHex a != addrHex b) r.toAddress
        t.toAddress = false →
      bothSomeAnd (fun a b => a != b) r.data t.data = false →
      bothSomeAnd (fun a b => a != b) r.accessList t.accessList = false →
      r.chainId = t.chainId → r.blobGas ≠ t.blobGas →
      VerifyTransactionFromNodeFields addrHex fmtAccessList fmtHashes r t =
        some ("data gas mismatch: " ++ toString r.blobGas ++ " != " ++
          toString t.blobGas)) ∧
    (r.nonce = t.nonce → r.gas = t.gas → r.gasPrice = t.gasPrice →
      r.value = t.value →
      bothSomeAnd (fun a b => addrHex a != addrHex b) r.toAddress
        t.toAddress = false →
      bothSomeAnd (fun a b => a != b) r.data t.data = false →
      bothSomeAnd (fun a b => a != b) r.accessList t.accessList = false →
      r.chainId = t.chainId → r.blobGas = t.blobGas →
      r.gasFeeCap ≠ t.gasFeeCap →
      VerifyTransactionFromNodeFields addrHex fmtAccessList fmtHashes r t =
        some ("max fee per gas mismatch: " ++ toString r.gasFeeCap ++
          " != " ++ toString t.gasFeeCap)) ∧
    (r.nonce = t.nonce → r.gas = t.gas → r.gasPrice = t.gasPrice →
      r.value = t.value →
      bothSomeAnd (fun a b => addrHex a != addrHex b) r.toAddress
        t.toAddress = false →
      bothSomeAnd (fun a b => a != b) r.data t.data = false →
      bothSomeAnd (fun a b => a != b) r.accessList t.accessList = false →
      r.chainId = t.chainId → r.blobGas = t.blobGas →
      r.gasFeeCap = t.gasFeeCap → r.gasTipCap ≠ t.gasTipCap →
      VerifyTransactionFromNodeFields addrHex fmtAccessList fmtHashes r t =
        some ("max priority fee per gas mismatch: " ++
          toString r.gasTipCap ++ " != " ++ toString t.gasTipCap)) ∧
    (r.nonce = t.nonce → r.gas = t.gas → r.gasPrice = t.gasPrice →
      r.value = t.value →
      bothSomeAnd (fun a b => addrHex a != addrHex b) r.toAddress
        t.toAddress = false →
      bothSomeAnd (fun a b => a != b) r.data t.data = false →
      bothSomeAnd (fun a b => a != b) r.accessList t.accessList = false →
      r.chainId = t.chainId → r.blobGas = t.blobGas →
      r.gasFeeCap = t.gasFeeCap → r.gasTipCap = t.gasTipCap →
      r.blobGasFeeCap ≠ t.blobGasFeeCap →
      VerifyTransactionFromNodeFields addrHex fmtAccessList fmtHashes r t =
        some ("max fee per data gas mismatch: " ++
          toString r.blobGasFeeCap ++ " != " ++
          toString t.blobGasFeeCap)) ∧
    (r.nonce = t.nonce → r.gas = t.gas → r.gasPrice = t.gasPrice →
      r.value = t.value →
      bothSomeAnd (fun a b => addrHex a != addrHex b) r.toAddress
        t.toAddress = false →
      bothSomeAnd (fun a b => a != b) r.data t.data = false →
      bothSomeAnd (fun a b => a != b) r.accessList t.accessList = false →
      r.chainId = t.chainId → r.blobGas = t.blobGas →
      r.gasFeeCap = t.gasFeeCap → r.gasTipCap = t.gasTipCap →
      r.blobGasFeeCap = t.blobGasFeeCap →
      ∀ a b, r.blobHashes = some a → t.blobHashes = some b → a ≠ b →
      VerifyTransactionFromNodeFields addrHex fmtAccessList fmtHashes r t =
        some ("blob versioned hashes mismatch: " ++ fmtHashes a ++
          " != " ++ fmtHashes b)) ∧
    (r.nonce = t.nonce → r.gas = t.gas → r.gasPrice = t.gasPrice →
      r.value = t.value →
      bothSomeAnd (fun a b => addrHex a != addrHex b) r.toAddress
        t.toAddress = false →
      bothSomeAnd (fun a b => a != b) r.data t.data = false →
      bothSomeAnd (fun a b => a != b) r.accessList t.accessList = false →
      r.chainId = t.chainId → r.blobGas = t.blobGas →
      r.gasFeeCap = t.gasFeeCap → r.gasTipCap = t.gasTipCap →
      r.blobGasFeeCap = t.blobGasFeeCap →
      bothSomeAnd (fun a b => a != b) r.blobHashes t.blobHashes = false →
      r.txType ≠ t.txType →
      VerifyTransactionFromNodeFields addrHex fmtAccessList fmtHashes r t =
        some ("type mismatch: " ++ toString r.txType ++ " != " ++
          toString t.txType)) := by
  constructor
  · simp only [VerifyTransactionFromNodeFields, ifSomeChain,
      bne_eq_false_iff_eq, and_true]
  · refine ⟨?_, ?_, ?_, ?_, ?_, ?_, ?_, ?_, ?_, ?_, ?_, ?_, ?_, ?_⟩ <;>
      · intros
        simp_all [VerifyTransactionFromNodeFields, bothSomeAnd, bne_iff_ne]

/-- Witness for C2's amended theorem: a concrete nonce mismatch yields the
naming error message. -/
theorem verifyTransactionFromNode_field_diagnostics_witness :
    VerifyTransactionFromNodeFields hexEncode (fun _ => "") (fun _ => "")
      (mkTx 2 9) (mkTx 3 9) = some "nonce mismatch: 2 != 3" := by
  have h := (verifyTransactionFromNode_field_diagnostics hexEncode
    (fun _ => "") (fun _ => "") (mkTx 2 9) (mkTx 3 9)).2.1 (by decide)
  exact h.trans (by decide)

theorem runStepsFrom_append {Ctx : Type} (pre rest : List (TestStepModel Ctx))
    (i : Nat) (ctx ctx' : Ctx) (h : runAllSteps pre ctx = .ok ctx') :
    runStepsFrom i (pre ++ rest) ctx =
      (List.range' (i + 1) pre.length ++
          (runStepsFrom (i + pre.length) rest ctx').1,
        (runStepsFrom (i + pre.length) rest ctx').2) := by
  induction pre generalizing i ctx with
  | nil =>
    simp only [runAllSteps] at h
    cases h
    simp [List.range']
  | cons s tl ih =>
    cases hs : s.execute ctx with
    | error e => simp [runAllSteps, hs] at h
    | ok ctx2 =>
      simp only [runAllSteps, hs] at h
      have e1 : i + 1 + tl.length = i + (tl.length + 1) := by omega
      simp only [List.cons_append, runStepsFrom, hs, List.append_eq,
        ih _ _ h, List.length_cons, List.range'_succ, e1]

/-- C3: `BlobsBaseSpec.Execute` runs the steps of the sequence strictly in
order: when every step succeeds, the executed step numbers are exactly
`1, …, n` in order; and when the steps before position `k` succeed and the
step at position `k` (0-based; `pre.length` here) returns an error, the run
ends in a fatal test-case failure whose message reports the 1-based index of
the offending step and the error, with exactly the steps `1, …, k+1`
executed and no later step of the sequence executed. -/
theorem blobsBaseSpecExecute_sequencing {Ctx : Type} :
    (∀ (steps : List (TestStepModel Ctx)) (ctx ctxF : Ctx),
      runAllSteps steps ctx = .ok ctxF →
      BlobsBaseSpecExecuteSteps steps ctx =
        (List.range' 1 steps.length, .success ctxF)) ∧
    (∀ (pre suf : List (TestStepModel Ctx)) (s : TestStepModel Ctx)
        (ctx ctx' : Ctx) (e : String),
      runAllSteps pre ctx = .ok ctx' → s.execute ctx' = .error e →
      BlobsBaseSpecExecuteSteps (pre ++ s :: suf) ctx =
        (List.range' 1 (pre.length + 1),
          .fatal (pre.length + 1)
            ("FAIL: Error executing step " ++ toString (pre.length + 1) ++
              ": " ++ e))) := by
  constructor
  · intro steps ctx ctxF h
    have h2 := runStepsFrom_append steps [] 0 ctx ctxF h
    simpa [BlobsBaseSpecExecuteSteps, runStepsFrom] using h2
  · intro pre suf s ctx ctx' e hpre hs
    have h2 := runStepsFrom_append pre (s :: suf) 0 ctx ctx' hpre
    simp only [runStepsFrom, hs, Nat.zero_add] at h2
    simpa [BlobsBaseSpecExecuteSteps, List.range'_1_concat,
      Nat.add_comm 1 pre.length] using h2

/-- Witness for C3: a three-step sequence over a counter context whose
second step fails aborts at step 2 with the formatted message, executing
steps 1 and 2 only. -/
theorem blobsBaseSpecExecute_sequencing_witness :
    BlobsBaseSpecExecuteSteps
        [⟨"incr", fun c => .ok (c + 1)⟩, ⟨"boom", fun _ => .error "boom"⟩,
          ⟨"incr", fun c => .ok (c + 1)⟩] (0 : Nat) =
      ([1, 2], .fatal 2 "FAIL: Error executing step 2: boom") := by
  have h := (@blobsBaseSpecExecute_sequencing Nat).2
    [⟨"incr", fun c => .ok (c + 1)⟩] [⟨"incr", fun c => .ok (c + 1)⟩]
    ⟨"boom", fun _ => .error "boom"⟩ 0 1 "boom" rfl rfl
  exact h.trans (by decide)

/-- C10: on a freshly created pool whose map is nil, `AddBlobTransaction`
first initializes the map and then stores the transaction: afterwards the
map holds exactly one binding, and looking up the transaction's hash finds
exactly the added transaction. -/
theorem addBlobTransaction_nil_map (tx : Transaction) :
    AddBlobTransaction { transactions := none } tx =
      { transactions := some [(tx.txHash, tx)] } ∧
    poolLookup (AddBlobTransaction { transactions := none } tx) tx.txHash =
      some tx := by
  exact ⟨rfl, by simp [poolLookup, AddBlobTransaction, mapInsert, mapLookup]⟩

/-- C4: in the static `Tests` table, every `SendModifiedLatestPayload` step
carrying a `VersionedHashes` override has its expected status set to
`Invalid` (all nine of them), never an accepting status; and the overrides
realise all eight corruption modes over an `[0, 1]` two-blob payload —
missing (`[0]`), extra (`[0, 1, 2]`), out-of-order (`[1, 0]`), repeated
(`[0, 1, 1]`), incorrect-hash (`[0, 2]`), incorrect-version (version bytes
`[1, 2]`), nil (`none`) and empty (`[]`) — plus a ninth variant (hashes on a
blob-less payload). -/
theorem tests_sendModifiedLatestPayload_all_invalid :
    (sendModifiedWithHashes Tests).map (fun cfg => cfg.expectedStatus) =
      List.replicate 9 PayloadStatus.invalid ∧
    (sendModifiedWithHashes Tests).map (fun cfg => cfg.versionedHashes) =
      [some { blobs := some [0] }, some { blobs := some [0, 1, 2] },
        some { blobs := some [1, 0] }, some { blobs := some [0, 1, 1] },
        some { blobs := some [0, 2] },
        some { blobs := some [0, 1], hashVersions := some [1, 2] },
        some { blobs := none }, some { blobs := some [] },
        some { blobs := some [0, 1] }] := by
  exact ⟨rfl, rfl⟩

/-- C6: the replacement scenario of the `Tests` table ("Replace Blob
Transactions") consists of exactly four `SendBlobTransactions` steps
followed by one `NewPayloads` step; each send issues one transaction of one
blob; the replace flag (which reuses the previous nonce, so all four
transactions share one nonce) is unset on the first send and set on each of
the following three; the fee caps and the tip caps are strictly increasing
across the four sends; and the payload step expects exactly one payload with
exactly one included blob, namely BlobID 3 — the fourth allocated blob,
carried by the last and highest-fee transaction. -/
theorem tests_replace_blob_transactions_scenario :
    ∃ s,
      Tests.find? (fun x => x.name == "Replace Blob Transactions") = some s ∧
      s.blobTestSequence =
        (sendConfigs s).map TestStep.sendBlobTransactions ++
          (payloadConfigs s).map TestStep.newPayloads ∧
      (sendConfigs s).map (fun c => c.blobTransactionSendCount) =
        [1, 1, 1, 1] ∧
      (sendConfigs s).map effectiveBlobsPerTransaction = [1, 1, 1, 1] ∧
      (sendConfigs s).map (fun c => c.replaceTransactions) =
        [false, true, true, true] ∧
      (sendConfigs s).map (fun c => c.blobTransactionGasFeeCap) =
        [some 1000000000, some 10000000000, some 100000000000,
          some 1000000000000] ∧
      (sendConfigs s).map (fun c => c.blobTransactionGasTipCap) =
        [some 1000000000, some 10000000000, some 100000000000,
          some 1000000000000] ∧
      List.Pairwise (fun a b => a < b)
        ((sendConfigs s).filterMap (fun c => c.blobTransactionGasFeeCap)) ∧
      List.Pairwise (fun a b => a < b)
        ((sendConfigs s).filterMap (fun c => c.blobTransactionGasTipCap)) ∧
      (payloadConfigs s).map
          (fun c => (effectivePayloadCount c, c.expectedIncludedBlobCount,
            c.expectedBlobs)) =
        [(1, 1, some [3])] := by
  exact ⟨_, rfl, by decide⟩

/-- C7: the multiple-accounts ordering scenario of the `Tests` table ("Blob
Transaction Ordering, Multiple Accounts") submits 5 transactions of
`MAX_BLOBS_PER_BLOCK - 1` blobs each from account index 0, then 5
single-blob transactions from account index 1, and its payload step expects
5 payloads, each with exactly `MAX_BLOBS_PER_BLOCK` included blobs (full
capacity). -/
theorem tests_multiple_accounts_ordering_scenario :
    ∃ s,
      Tests.find?
          (fun x => x.name == "Blob Transaction Ordering, Multiple Accounts") =
        some s ∧
      s.blobTestSequence =
        (sendConfigs s).map TestStep.sendBlobTransactions ++
          (payloadConfigs s).map TestStep.newPayloads ∧
      (sendConfigs s).map
          (fun c => (c.blobTransactionSendCount, c.blobsPerTransaction,
            c.accountIndex)) =
        [(5, MAX_BLOBS_PER_BLOCK - 1, 0), (5, 1, 1)] ∧
      (payloadConfigs s).map
          (fun c => (c.payloadCount, c.expectedIncludedBlobCount)) =
        [(5, MAX_BLOBS_PER_BLOCK)] ∧
      expandedExpectations (payloadConfigs s) =
        List.replicate 5 MAX_BLOBS_PER_BLOCK := by
  exact ⟨_, rfl, by decide⟩

/-- C8: the capacity-rollover scenario of the `Tests` table ("Blob
Transactions On Block 1, Cancun Genesis") first submits
`TARGET_BLOBS_PER_BLOCK` single-blob transactions at minimal fee (max data
gas cost 1) and produces one payload expecting them, then raises the blob
count past the dynamic-price threshold (enough max-blob transactions that
the per-blob-gas price reaches 2); the payload expectations after that raise
are: `DATA_GAS_COST_INCREMENT_EXCEED_BLOBS / (MAX_BLOBS_PER_BLOCK -
TARGET_BLOBS_PER_BLOCK)` payloads (at least one) each expecting
`MAX_BLOBS_PER_BLOCK` included blobs, followed by exactly one payload
expecting zero included blobs, followed by one payload expecting
`MAX_BLOBS_PER_BLOCK` included blobs (the deferred transaction). -/
theorem tests_capacity_rollover_scenario :
    ∃ s,
      Tests.find?
          (fun x => x.name == "Blob Transactions On Block 1, Cancun Genesis") =
        some s ∧
      s.blobTestSequence.take 3 =
        [TestStep.sendBlobTransactions {
            blobTransactionSendCount := TARGET_BLOBS_PER_BLOCK,
            blobTransactionMaxDataGasCost := some 1 },
          TestStep.newPayloads {
            expectedIncludedBlobCount := TARGET_BLOBS_PER_BLOCK,
            expectedBlobs := some (GetBlobList 0 TARGET_BLOBS_PER_BLOCK) },
          TestStep.sendBlobTransactions {
            blobTransactionSendCount :=
              DATA_GAS_COST_INCREMENT_EXCEED_BLOBS /
                (MAX_BLOBS_PER_BLOCK - TARGET_BLOBS_PER_BLOCK) + 1,
            blobsPerTransaction := MAX_BLOBS_PER_BLOCK,
            blobTransactionMaxDataGasCost := some 1 }] ∧
      s.blobTestSequence.drop 3 =
        [TestStep.newPayloads {
            payloadCount :=
              DATA_GAS_COST_INCREMENT_EXCEED_BLOBS /
                (MAX_BLOBS_PER_BLOCK - TARGET_BLOBS_PER_BLOCK),
            expectedIncludedBlobCount := MAX_BLOBS_PER_BLOCK },
          TestStep.newPayloads { expectedIncludedBlobCount := 0 },
          TestStep.newPayloads {
            expectedIncludedBlobCount := MAX_BLOBS_PER_BLOCK }] ∧
      1 ≤ DATA_GAS_COST_INCREMENT_EXCEED_BLOBS /
            (MAX_BLOBS_PER_BLOCK - TARGET_BLOBS_PER_BLOCK) ∧
      2 ≤ getDataGasPrice
            (DATA_GAS_COST_INCREMENT_EXCEED_BLOBS * DATA_GAS_PER_BLOB) ∧
      expandedExpectations (stepPayloadConfigs (s.blobTestSequence.drop 3)) =
        List.replicate
            (DATA_GAS_COST_INCREMENT_EXCEED_BLOBS /
              (MAX_BLOBS_PER_BLOCK - TARGET_BLOBS_PER_BLOCK))
            MAX_BLOBS_PER_BLOCK ++
          [0, MAX_BLOBS_PER_BLOCK] := by
  exact ⟨_, rfl, by decide⟩

end HiveBlobs
